import Mathlib

/-
  Verification of the RXPad protocol core (src/xpad.rs).

  Shallow embedding conventions:
  * Raw inbound/outbound buffers are `List Nat` of byte values (each < 256 in
    practice; little-endian 16-bit reads reduce their arguments mod 256).
  * Rust slice indexing `data[i]`, which panics when `i >= data.len()`, is
    modelled by `getByte`, returning `Except DecodeErr Nat` where
    `DecodeErr.panic i` records an out-of-bounds index and
    `DecodeErr.einval` models the explicit `Err(kernel::Error::EINVAL)`
    return of `process_packet`.
  * Rust `i16` values are modelled as `Int` in [-32768, 32767];
    `i16::from_le_bytes` is `i16FromLe` and the bitwise complement `!y`
    of an `i16` is `i16Not y = -1 - y`.
  * The batch a decode call issues of `input_report_key` / `input_report_abs` /
    ack side effects is collected in a `Frame` record, in issue order.
-/

deriving instance DecidableEq for Except

/-- Per-byte read of a raw buffer: Rust `data[i]` (panics out of bounds). -/
inductive DecodeErr where
  | einval : DecodeErr
  | panic : Nat → DecodeErr
deriving DecidableEq, Repr

def getByte (data : List Nat) (i : Nat) : Except DecodeErr Nat :=
  if i < data.length then Except.ok (data.getD i 0) else Except.error (DecodeErr.panic i)

/-- src/xpad.rs line 26: `const XPAD_PKT_LEN: usize = 64`. -/
def XPAD_PKT_LEN : Nat := 64

/-- Signed 16-bit reinterpretation of a value in [0, 65536). -/
def toI16 (n : Nat) : Int := if n < 0x8000 then (n : Int) else (n : Int) - 0x10000

/-- Rust `i16::from_le_bytes([lo, hi])`. -/
def i16FromLe (lo hi : Nat) : Int := toI16 (lo % 256 + 256 * (hi % 256))

/-- Rust bitwise complement `!y` on `i16` (in two-complement form, `!y = -1 - y`). -/
def i16Not (y : Int) : Int := -1 - y

/-- Rust `b as i32` for a `bool` comparison result. -/
def boolToInt (b : Bool) : Int := if b then 1 else 0

/-- Digital buttons reported by the decoders (linux input key codes). -/
inductive Btn where
  | btnMode | btnStart | btnSelect
  | btnA | btnB | btnX | btnY
  | th1 | th2 | th3 | th4          -- BTN_TRIGGER_HAPPY1..4 (d-pad as buttons)
  | th5 | th6 | th7 | th8          -- BTN_TRIGGER_HAPPY5..8 (paddles)
  | tl2 | tr2                      -- BTN_TL2 / BTN_TR2 (triggers as buttons)
deriving DecidableEq, Repr

/-- Absolute axes reported by the decoders. -/
inductive Axis where
  | absX | absY | absRx | absRy    -- sticks
  | absZ | absRz                   -- triggers as axes
  | hat0x | hat0y                  -- d-pad hat
deriving DecidableEq, Repr

/-- The batch of input reports issued by one decode call, in issue order,
    plus the ack side effect (`xpadone_ack_mode_report` argument) and
    whether `input_sync` / `synchronize` was called. -/
structure Frame where
  keys : List (Btn × Bool)
  abs : List (Axis × Int)
  ack : Option Nat
  doSync : Bool
deriving DecidableEq, Repr

/-- The module-parameter atomics read by `process_packet`
    (src/xpad.rs lines 89-91: DPAD_TO_BUTTONS, TRIGGERS_TO_BUTTONS,
    STICKS_TO_NULL). -/
structure ModParams where
  dpadToButtons : Bool
  triggersToButtons : Bool
  sticksToNull : Bool
deriving DecidableEq, Repr

/-- src/xpad.rs lines 2638-2679, `process_packet` (Xbox / Xbox 360 layout).
    The reported values are collected into a `Frame`; report order follows
    the source (sticks, then triggers, then d-pad).  After the explicit
    length guard every index used (2..15) is below `XPAD_PKT_LEN`, so the
    in-bounds reads are written with `List.getD`. -/
def process_packet (p : ModParams) (data : List Nat) : Except DecodeErr Frame :=
  if data.length < XPAD_PKT_LEN then Except.error DecodeErr.einval
  else
    let buttons := data.getD 2 0
    let trig0 := data.getD 10 0
    let trig1 := data.getD 11 0
    let stickAbs : List (Axis × Int) :=
      if !p.sticksToNull then
        [(Axis.absX, i16FromLe (data.getD 12 0) (data.getD 13 0)),
         (Axis.absY, i16Not (i16FromLe (data.getD 14 0) (data.getD 15 0)))]
      else []
    let trigKeys : List (Btn × Bool) :=
      if p.triggersToButtons then
        [(Btn.tl2, decide (0 < trig0)), (Btn.tr2, decide (0 < trig1))]
      else []
    let trigAbs : List (Axis × Int) :=
      if p.triggersToButtons then []
      else [(Axis.absZ, (trig0 : Int)), (Axis.absRz, (trig1 : Int))]
    let dpadKeys : List (Btn × Bool) :=
      if p.dpadToButtons then
        [(Btn.th1, buttons &&& 0x04 != 0), (Btn.th2, buttons &&& 0x08 != 0),
         (Btn.th3, buttons &&& 0x01 != 0), (Btn.th4, buttons &&& 0x02 != 0)]
      else []
    let dpadAbs : List (Axis × Int) :=
      if p.dpadToButtons then []
      else
        [(Axis.hat0x, boolToInt (buttons &&& 0x04 != 0) - boolToInt (buttons &&& 0x08 != 0)),
         (Axis.hat0y, boolToInt (buttons &&& 0x01 != 0) - boolToInt (buttons &&& 0x02 != 0))]
    Except.ok { keys := trigKeys ++ dpadKeys,
                abs := stickAbs ++ trigAbs ++ dpadAbs,
                ack := none,
                doSync := true }

/-- First value reported for an axis in the abs list of a frame. -/
def absVal (a : Axis) : List (Axis × Int) → Option Int
  | [] => none
  | (k, v) :: t => if k = a then some v else absVal a t

def frameAbs (f : Frame) (a : Axis) : Option Int := absVal a f.abs

/-! ## Xbox One (GIP) decode path -/

/-- src/xpad.rs lines 64-70: packet-type revisions for the Xbox One path. -/
inductive PacketType where
  | xb | xbe1 | xbe2FwOld | xbe2Fw5Early | xbe2Fw511
deriving DecidableEq, Repr

/-- src/xpad.rs lines 33-38: `MapFlags` bit positions. -/
def MAP_DPAD_TO_BUTTONS : Nat := 1
def MAP_TRIGGERS_TO_BUTTONS : Nat := 2
def MAP_STICKS_TO_NULL : Nat := 4
def MAP_SELECT_BUTTON : Nat := 8
def MAP_PADDLES : Nat := 16
def MAP_PROFILE_BUTTON : Nat := 32

/-- The bitflags `contains` test: every bit of `f` is set in `m`. -/
def mapContains (m f : Nat) : Bool := m &&& f == f

/-- Modelled from the spec: the GIP command-tag and option constants
    (`GIP_CMD_VIRTUAL_KEY`, `GIP_CMD_FIRMWARE`, `GIP_CMD_INPUT`,
    `GIP_OPT_ACK`, `GIP_OPT_INTERNAL`) are referenced by
    `xpadone_process_packet` but their definitions are not under src/.
    The spec describes the first byte as "a command tag multiplexing
    sub-decoders" with `0x21` the only literal tag; the standard GIP
    values are used here.  No claim depends on the numeric values,
    only on the tags being distinct from each other and from `0x21`. -/
def GIP_CMD_VIRTUAL_KEY : Nat := 0x07
def GIP_CMD_FIRMWARE : Nat := 0x0c
def GIP_CMD_INPUT : Nat := 0x20
def GIP_OPT_ACK : Nat := 0x10
def GIP_OPT_INTERNAL : Nat := 0x20

/-- src/xpad.rs lines 2386-2390: GHL d-pad lookup table `DPAD_MAPPING`. -/
def DPAD_MAPPING : List (Int × Int) :=
  [(0, -1), (1, -1), (1, 0), (1, 1),
   (0, 1), (-1, 1), (-1, 0), (-1, -1),
   (0, 0)]

/-- The `UsbXpad` fields read by `xpadone_process_packet`
    (src/xpad.rs lines 2724-2734): `mapping` and `packet_type`. -/
structure XpadOneCfg where
  mapping : Nat
  packetType : PacketType
deriving DecidableEq, Repr

/-- The frame issued by the `GIP_CMD_VIRTUAL_KEY` arm: the mode button from
    bits 0x03 of `data[4]`, plus the optional ack side effect. -/
def vkFrame (ack : Option Nat) (b4 : Nat) : Frame :=
  { keys := [(Btn.btnMode, b4 &&& 0x03 != 0)], abs := [], ack := ack, doSync := true }

/-- The frame issued by the `GIP_CMD_FIRMWARE` arm for the `buttons` value
    `if data[19] != 0 { 0 } else { data[18] }`. -/
def fwFrame (buttons : Nat) : Frame :=
  { keys := [(Btn.th5, buttons &&& 0x01 != 0), (Btn.th6, buttons &&& 0x02 != 0),
             (Btn.th7, buttons &&& 0x04 != 0), (Btn.th8, buttons &&& 0x08 != 0)],
    abs := [], ack := none, doSync := true }

/-- src/xpad.rs lines 2763-2833, `xpadone_process_packet`.  One byte read
    per `data[i]` occurrence, in source order; reports collected in a
    `Frame` in issue order.  The two conditional byte reads (`data[2]` in
    the virtual-key arm, `data[18]` in the firmware arm) are written with
    the tail of the arm inlined into each branch, preserving the read order. -/
def xpadone_process_packet (cfg : XpadOneCfg) (data : List Nat) :
    Except DecodeErr Frame := do
  let b0 ← getByte data 0
  if b0 == GIP_CMD_VIRTUAL_KEY then do
    let b1 ← getByte data 1
    if b1 == (GIP_OPT_ACK ||| GIP_OPT_INTERNAL) then do
      let b2 ← getByte data 2
      let b4 ← getByte data 4
      pure (vkFrame (some b2) b4)
    else do
      let b4 ← getByte data 4
      pure (vkFrame none b4)
  else if b0 == GIP_CMD_FIRMWARE then
    if cfg.packetType == PacketType.xbe2Fw511 then do
      let b19 ← getByte data 19
      if b19 != 0 then
        pure (fwFrame 0)
      else do
        let b18 ← getByte data 18
        pure (fwFrame b18)
    else
      pure { keys := [], abs := [], ack := none, doSync := false }
  else if b0 == GIP_CMD_INPUT then do
    let b4 ← getByte data 4
    let b5 ← getByte data 5
    let baseKeys : List (Btn × Bool) :=
      [(Btn.btnStart, b4 &&& 0x04 != 0), (Btn.btnSelect, b4 &&& 0x08 != 0),
       (Btn.btnA, b4 &&& 0x10 != 0), (Btn.btnB, b4 &&& 0x20 != 0),
       (Btn.btnX, b4 &&& 0x40 != 0), (Btn.btnY, b4 &&& 0x80 != 0)]
    let dpadKeys : List (Btn × Bool) :=
      if mapContains cfg.mapping MAP_DPAD_TO_BUTTONS then
        [(Btn.th1, b5 &&& 0x04 != 0), (Btn.th2, b5 &&& 0x08 != 0),
         (Btn.th3, b5 &&& 0x01 != 0), (Btn.th4, b5 &&& 0x02 != 0)]
      else []
    let dpadAbs : List (Axis × Int) :=
      if mapContains cfg.mapping MAP_DPAD_TO_BUTTONS then []
      else
        [(Axis.hat0x, boolToInt (b5 &&& 0x08 != 0) - boolToInt (b5 &&& 0x04 != 0)),
         (Axis.hat0y, boolToInt (b5 &&& 0x02 != 0) - boolToInt (b5 &&& 0x01 != 0))]
    if mapContains cfg.mapping MAP_STICKS_TO_NULL then
      pure { keys := baseKeys ++ dpadKeys, abs := dpadAbs, ack := none, doSync := true }
    else do
      let b10 ← getByte data 10
      let b11 ← getByte data 11
      let b12 ← getByte data 12
      let b13 ← getByte data 13
      let b14 ← getByte data 14
      let b15 ← getByte data 15
      let b16 ← getByte data 16
      let b17 ← getByte data 17
      pure { keys := baseKeys ++ dpadKeys,
             abs := dpadAbs ++
               [(Axis.absX, i16FromLe b10 b11),
                (Axis.absY, i16Not (i16FromLe b12 b13)),
                (Axis.absRx, i16FromLe b14 b15),
                (Axis.absRy, i16Not (i16FromLe b16 b17))],
             ack := none, doSync := true }
  else if b0 == 0x21 then do
    let b6 ← getByte data 6
    let dpadValue := b6 &&& 0x0F
    let xy := DPAD_MAPPING.getD (min dpadValue 8) (0, 0)
    pure { keys := [], abs := [(Axis.hat0x, xy.1), (Axis.hat0y, xy.2)],
           ack := none, doSync := true }
  else
    pure { keys := [], abs := [], ack := none, doSync := false }

/-! ## Xbox 360 wireless decode path -/

/-- Outcome of one `xpad360w_process_packet` call: the stored presence
    value after the call (`xpad.pad_present` after the `swap`), whether a
    presence-change event was signalled (the `schedule_work` branch), and
    the bytes delegated to the Xbox 360 decode path (`&data[4..]`), if any. -/
structure W360Result where
  present : Bool
  event : Bool
  delegated : Option (List Nat)
deriving DecidableEq, Repr

/-- src/xpad.rs lines 2745-2760, `xpad360w_process_packet`.
    `padPresent` is the stored `xpad.pad_present` before the call.
    `data[1]` is read once up front: the source reads it in whichever of
    the two `if` bodies runs first, and every control path through the
    function reads it, with the same panic index on short buffers.
    The atomic `swap` is split into the stored value (`present`) and the
    old-value comparison (`event`); both are guarded by the same
    presence-bit test as in the source. -/
def xpad360w_process_packet (padPresent : Bool) (data : List Nat) :
    Except DecodeErr W360Result := do
  let b0 ← getByte data 0
  let b1 ← getByte data 1
  let present := if b0 &&& 0x08 != 0 then b1 &&& 0x80 != 0 else padPresent
  let ev := if b0 &&& 0x08 != 0 then padPresent != (b1 &&& 0x80 != 0) else false
  let delegated : Option (List Nat) :=
    if b1 == 0x01 && decide (4 ≤ data.length) then some (data.drop 4) else none
  pure { present := present, event := ev, delegated := delegated }

/-! ## Initialization sequencer -/

/-- One entry of the static initialization template list: recorded vendor
    id, product id (0 = wildcard) and payload bytes. -/
structure InitPacket where
  vendor : Nat
  product : Nat
  data : List Nat
deriving DecidableEq, Repr

/-- The `UsbXpad` state read and mutated by `xpad_prepare_next_init_packet`:
    device identity, the `init_seq` cursor and the `odata_serial` counter.
    The static template list (`XBOXONE_INIT_PACKETS`, whose entries are not
    under src/) is carried as a field so that its preservation by `next`
    can be stated; the function never changes it. -/
structure XpadSession where
  templates : List InitPacket
  vendorId : Nat
  productId : Nat
  initSeq : Nat
  odataSerial : Nat
deriving DecidableEq, Repr

/-- The template-applicability test of src/xpad.rs lines 2868-2869. -/
def templApplies (s : XpadSession) (p : InitPacket) : Bool :=
  (p.vendor == 0 || p.vendor == s.vendorId) &&
  (p.product == 0 || p.product == s.productId)

/-- src/xpad.rs lines 2862-2876, `xpad_prepare_next_init_packet`.
    The while loop becomes recursion on the distance from the cursor to the
    end of the list: each iteration reads the template at the cursor
    (`packet`), advances the cursor, and either stamps and returns the
    payload or continues.  `fetch_add(1) as u8` stamps the old counter
    value mod 256 and increments the counter. -/
def xpad_prepare_next_init_packet (s : XpadSession) :
    Option (List Nat) × XpadSession :=
  if h : s.initSeq < s.templates.length then
    if templApplies s (s.templates.get ⟨s.initSeq, h⟩) then
      (some ((s.templates.get ⟨s.initSeq, h⟩).data.set 2 (s.odataSerial % 256)),
       { s with initSeq := s.initSeq + 1, odataSerial := s.odataSerial + 1 })
    else xpad_prepare_next_init_packet { s with initSeq := s.initSeq + 1 }
  else (none, s)
termination_by s.templates.length - s.initSeq
decreasing_by simp_wf; omega

/-! ## Effect encoder -/

/-- src/xpad.rs lines 50-56: controller hardware variants. -/
inductive XType where
  | xbox | xbox360 | xbox360W | xboxOne | unknown
deriving DecidableEq, Repr

inductive UsbErr where
  | notSupported
deriving DecidableEq, Repr

/-- Modelled from the spec: `GIP_CMD_RUMBLE`, `GIP_PL_LEN` and
    `GIP_MOTOR_ALL` are referenced by `xpad_play_effect` but not defined
    under src/; the spec only calls the payload "a fixed command-tagged
    payload".  Standard GIP values are used; no claim depends on them. -/
def GIP_CMD_RUMBLE : Nat := 0x09
def GIP_PL_LEN (n : Nat) : Nat := n
def GIP_MOTOR_ALL : Nat := 0x0F

/-- src/xpad.rs lines 2893-2919, `xpad_play_effect`.  `serial` is the
    `odata_serial` counter before the call; the second component of the
    result is the counter after the call (`fetch_add` only happens in the
    XboxOne arm).  `as u8` casts are `% 256`. -/
def xpad_play_effect (xtype : XType) (serial : Nat) (strong weak : Nat) :
    Except UsbErr (List Nat) × Nat :=
  match xtype with
  | XType.xboxOne =>
      (Except.ok
        [GIP_CMD_RUMBLE,
         0x00,
         serial % 256,
         GIP_PL_LEN 9,
         0x00,
         GIP_MOTOR_ALL,
         0x00,
         0x00,
         (strong / 512) % 256,
         (weak / 512) % 256,
         0xFF,
         0x00,
         0xFF],
       serial + 1)
  | _ => (Except.error UsbErr.notSupported, serial)

/-! ## Derived observations on frames and results -/

/-- The presence bit of a wireless packet: bit 0x80 of the second byte. -/
def presBit (d : List Nat) : Bool := d.getD 1 0 &&& 0x80 != 0

/-- The four d-pad digital buttons (`XPAD_BTN_PAD`, src/xpad.rs 2341-2345). -/
def isDpadBtn : Btn → Bool
  | Btn.th1 => true
  | Btn.th2 => true
  | Btn.th3 => true
  | Btn.th4 => true
  | _ => false

def hasDpadBtn (f : Frame) : Bool := f.keys.any (fun p => isDpadBtn p.1)

/-- The two hat axes (`XPAD_ABS_PAD`, src/xpad.rs 2367-2370). -/
def isHatAxis : Axis → Bool
  | Axis.hat0x => true
  | Axis.hat0y => true
  | _ => false

def hasHat (f : Frame) : Bool := f.abs.any (fun p => isHatAxis p.1)

example : process_packet ⟨false, false, false⟩ (List.replicate 64 0) =
    Except.ok { keys := [],
                abs := [(Axis.absX, 0), (Axis.absY, -1), (Axis.absZ, 0), (Axis.absRz, 0),
                        (Axis.hat0x, 0), (Axis.hat0y, 0)],
                ack := none, doSync := true } := by decide

example : process_packet ⟨false, false, false⟩ [] = Except.error DecodeErr.einval := by decide

example : xpadone_process_packet ⟨0, PacketType.xb⟩ [0x20, 0, 0, 0] =
    Except.error (DecodeErr.panic 4) := by decide

example : xpadone_process_packet ⟨1, PacketType.xb⟩ [0x21, 0, 0, 0, 0, 0, 0] =
    Except.ok { keys := [], abs := [(Axis.hat0x, 0), (Axis.hat0y, -1)],
                ack := none, doSync := true } := by decide

example : xpad360w_process_packet false [8, 1, 0, 0, 170] =
    Except.ok { present := false, event := false, delegated := some [170] } := by decide

example : xpad360w_process_packet false [8, 0x81, 0, 0] =
    Except.ok { present := true, event := true, delegated := none } := by decide

example :
    xpad_prepare_next_init_packet
      { templates := [⟨7, 7, [9, 9, 9]⟩, ⟨0, 0, [1, 2, 3, 4]⟩],
        vendorId := 5, productId := 6, initSeq := 0, odataSerial := 255 } =
    (some [1, 2, 255, 4],
     { templates := [⟨7, 7, [9, 9, 9]⟩, ⟨0, 0, [1, 2, 3, 4]⟩],
       vendorId := 5, productId := 6, initSeq := 2, odataSerial := 256 }) := by
  simp [xpad_prepare_next_init_packet, templApplies]

example : (xpad_play_effect XType.xboxOne 3 1024 0).1 =
    Except.ok [9, 0, 3, 9, 0, 15, 0, 0, 2, 0, 255, 0, 255] := by decide

example : xpad_play_effect XType.xbox360 3 1024 0 =
    (Except.error UsbErr.notSupported, 3) := by decide

/-! ## Basic lemmas about the byte-read monad -/

lemma exBind_ok {α β : Type} (a : α) (f : α → Except DecodeErr β) :
    ((Except.ok a : Except DecodeErr α) >>= f) = f a := rfl

lemma exBind_err {α β : Type} (e : DecodeErr) (f : α → Except DecodeErr β) :
    ((Except.error e : Except DecodeErr α) >>= f) = Except.error e := rfl

lemma exBind_eq_ok {α β : Type} {x : Except DecodeErr α}
    {f : α → Except DecodeErr β} {b : β} (h : (x >>= f) = Except.ok b) :
    ∃ a, x = Except.ok a ∧ f a = Except.ok b := by
  cases x with
  | error e => rw [exBind_err] at h; cases h
  | ok a => exact ⟨a, rfl, h⟩

lemma getByte_eq_ok {data : List Nat} {i : Nat} (h : i < data.length) :
    getByte data i = Except.ok (data.getD i 0) := by
  simp [getByte, h]

lemma getByte_ok_getD {data : List Nat} {i a : Nat}
    (h : getByte data i = Except.ok a) : data.getD i 0 = a := by
  unfold getByte at h
  split at h
  · exact (Except.ok.injEq _ _).mp h
  · cases h

lemma getByte_ok_lt {data : List Nat} {i a : Nat}
    (h : getByte data i = Except.ok a) : i < data.length := by
  unfold getByte at h
  split at h
  · assumption
  · cases h

/-! ## Evaluation of the Xbox 360 wireless path -/

lemma xpad360w_eval (s : Bool) (data : List Nat) (h : 2 ≤ data.length) :
    xpad360w_process_packet s data = Except.ok
      { present := if data.getD 0 0 &&& 0x08 != 0 then data.getD 1 0 &&& 0x80 != 0 else s,
        event := if data.getD 0 0 &&& 0x08 != 0 then s != (data.getD 1 0 &&& 0x80 != 0) else false,
        delegated :=
          if data.getD 1 0 == 0x01 && decide (4 ≤ data.length)
          then some (data.drop 4) else none } := by
  have h0 : 0 < data.length := by omega
  have h1 : 1 < data.length := by omega
  simp only [xpad360w_process_packet, getByte_eq_ok h0, getByte_eq_ok h1, exBind_ok]
  rfl

lemma xpad360w_short (s : Bool) (data : List Nat) (h : data.length < 2) :
    xpad360w_process_packet s data = Except.error (DecodeErr.panic data.length) := by
  match data, h with
  | [], _ => rfl
  | [a], _ => rfl

lemma xpad360w_ok_len {s : Bool} {data : List Nat} {r : W360Result}
    (h : xpad360w_process_packet s data = Except.ok r) : 2 ≤ data.length := by
  by_contra hlt
  rw [xpad360w_short s data (by omega)] at h
  cases h

/-- C4: for the Xbox 360 wireless variant, feeding two consecutive presence
    packets carrying the same presence bit signals a presence-change event
    on the first exactly when the bit differs from the initially stored
    value, and never on the second; in general an event is signalled only
    when the new presence value differs from the stored one. -/
theorem c4_presence_idempotent :
    (∀ (s : Bool) (d1 d2 : List Nat) (r1 r2 : W360Result),
        d1.getD 0 0 &&& 0x08 ≠ 0 →
        d2.getD 0 0 &&& 0x08 ≠ 0 →
        presBit d1 = presBit d2 →
        xpad360w_process_packet s d1 = Except.ok r1 →
        xpad360w_process_packet r1.present d2 = Except.ok r2 →
        r2.event = false ∧ (r1.event = true ↔ s ≠ presBit d1)) ∧
    (∀ (s : Bool) (d : List Nat) (r : W360Result),
        xpad360w_process_packet s d = Except.ok r →
        r.event = true → s ≠ r.present) := by
  constructor
  · intro s d1 d2 r1 r2 hb1 hb2 hp h1 h2
    have hbb1 : (d1.getD 0 0 &&& 0x08 != 0) = true := bne_iff_ne.mpr hb1
    have hbb2 : (d2.getD 0 0 &&& 0x08 != 0) = true := bne_iff_ne.mpr hb2
    rw [xpad360w_eval s d1 (xpad360w_ok_len h1)] at h1
    rw [xpad360w_eval r1.present d2 (xpad360w_ok_len h2)] at h2
    have e1 := (Except.ok.injEq _ _).mp h1
    have e2 := (Except.ok.injEq _ _).mp h2
    subst e1
    subst e2
    simp only [hbb1, hbb2, if_true, presBit] at *
    constructor
    · rw [hp]
      exact bne_self_eq_false _
    · exact bne_iff_ne
  · intro s d r h hev
    rw [xpad360w_eval s d (xpad360w_ok_len h)] at h
    have e := (Except.ok.injEq _ _).mp h
    subst e
    have hev' : (if (d.getD 0 0 &&& 0x08 != 0) = true
                 then s != (d.getD 1 0 &&& 0x80 != 0) else false) = true := hev
    show s ≠ (if (d.getD 0 0 &&& 0x08 != 0) = true
              then d.getD 1 0 &&& 0x80 != 0 else s)
    rcases hb : (d.getD 0 0 &&& 0x08 != 0) with _ | _
    · rw [hb] at hev'
      simp at hev'
    · rw [hb] at hev'
      simp only [if_pos rfl] at hev' ⊢
      exact bne_iff_ne.mp hev'

/-- C5 fails as stated: delegation to the Xbox 360 decode path does not
    require the presence bit (0x08 of byte 0) to be clear, nor the session
    to be marked present.  Here byte 0 has bit 0x08 set (a presence packet)
    and the stored presence is `false`, yet the bytes from offset 4 onward
    are still delegated. -/
theorem c5_counterexample :
    xpad360w_process_packet false [0x08, 0x01, 0, 0, 0xAA] =
      Except.ok { present := false, event := false, delegated := some [0xAA] } ∧
    (0x08 : Nat) &&& 0x08 ≠ 0 := by decide

/-- C5 amended: for every Xbox 360 wireless inbound packet the remaining
    bytes (offset 4 onward) are delegated to the Xbox 360 decode path
    exactly when the second byte equals 0x01 and the buffer holds at least
    4 bytes — independent of the presence bit and of the stored presence
    value (the delegation decision does not read the session state). -/
theorem c5_amended :
    (∀ (s : Bool) (data : List Nat) (r : W360Result),
        xpad360w_process_packet s data = Except.ok r →
        (r.delegated = some (data.drop 4) ↔ (data.getD 1 0 = 1 ∧ 4 ≤ data.length)) ∧
        (r.delegated = none ↔ ¬(data.getD 1 0 = 1 ∧ 4 ≤ data.length))) ∧
    (∀ (s1 s2 : Bool) (data : List Nat) (r1 r2 : W360Result),
        xpad360w_process_packet s1 data = Except.ok r1 →
        xpad360w_process_packet s2 data = Except.ok r2 →
        r1.delegated = r2.delegated) := by
  have key : ∀ (s : Bool) (data : List Nat) (r : W360Result),
      xpad360w_process_packet s data = Except.ok r →
      r.delegated = (if data.getD 1 0 == 0x01 && decide (4 ≤ data.length)
                     then some (data.drop 4) else none) := by
    intro s data r h
    rw [xpad360w_eval s data (xpad360w_ok_len h)] at h
    have e := (Except.ok.injEq _ _).mp h
    subst e
    rfl
  constructor
  · intro s data r h
    rw [key s data r h]
    by_cases hc : data.getD 1 0 = 1 ∧ 4 ≤ data.length
    · have hcond : (data.getD 1 0 == 0x01 && decide (4 ≤ data.length)) = true := by
        rw [beq_iff_eq.mpr hc.1, decide_eq_true hc.2]
        rfl
      rw [if_pos hcond]
      exact ⟨⟨fun _ => hc, fun _ => rfl⟩,
             ⟨fun hn => absurd hn (by simp), fun hn => absurd hc hn⟩⟩
    · have hcond : (data.getD 1 0 == 0x01 && decide (4 ≤ data.length)) = false := by
        rcases not_and_or.mp hc with h1 | h2
        · rw [beq_eq_false_iff_ne.mpr h1]
          rfl
        · rw [decide_eq_false h2]
          simp
      rw [if_neg (by rw [hcond]; exact Bool.false_ne_true)]
      exact ⟨⟨fun hn => absurd hn (by simp), fun hcc => absurd hcc hc⟩,
             ⟨fun _ => hc, fun _ => rfl⟩⟩
  · intro s1 s2 data r1 r2 h1 h2
    rw [key s1 data r1 h1, key s2 data r2 h2]

/-! ## Evaluation of the Xbox / Xbox 360 and Xbox One paths -/

lemma pure_eq_ok {α : Type} (a : α) :
    (pure a : Except DecodeErr α) = Except.ok a := rfl

lemma process_packet_eval (p : ModParams) (data : List Nat)
    (h : XPAD_PKT_LEN ≤ data.length) :
    process_packet p data = Except.ok
      { keys :=
          (if p.triggersToButtons then
            [(Btn.tl2, decide (0 < data.getD 10 0)), (Btn.tr2, decide (0 < data.getD 11 0))]
          else []) ++
          (if p.dpadToButtons then
            [(Btn.th1, data.getD 2 0 &&& 0x04 != 0), (Btn.th2, data.getD 2 0 &&& 0x08 != 0),
             (Btn.th3, data.getD 2 0 &&& 0x01 != 0), (Btn.th4, data.getD 2 0 &&& 0x02 != 0)]
          else []),
        abs :=
          (if !p.sticksToNull then
            [(Axis.absX, i16FromLe (data.getD 12 0) (data.getD 13 0)),
             (Axis.absY, i16Not (i16FromLe (data.getD 14 0) (data.getD 15 0)))]
          else []) ++
          (if p.triggersToButtons then []
           else [(Axis.absZ, (data.getD 10 0 : Int)), (Axis.absRz, (data.getD 11 0 : Int))]) ++
          (if p.dpadToButtons then []
           else
            [(Axis.hat0x, boolToInt (data.getD 2 0 &&& 0x04 != 0) -
                          boolToInt (data.getD 2 0 &&& 0x08 != 0)),
             (Axis.hat0y, boolToInt (data.getD 2 0 &&& 0x01 != 0) -
                          boolToInt (data.getD 2 0 &&& 0x02 != 0))]),
        ack := none, doSync := true } := by
  unfold process_packet
  rw [if_neg (by omega)]

lemma xpadone_input_eval (cfg : XpadOneCfg) (data : List Nat)
    (h0 : data.getD 0 0 = GIP_CMD_INPUT) (h : 18 ≤ data.length) :
    xpadone_process_packet cfg data = Except.ok
      { keys :=
          [(Btn.btnStart, data.getD 4 0 &&& 0x04 != 0), (Btn.btnSelect, data.getD 4 0 &&& 0x08 != 0),
           (Btn.btnA, data.getD 4 0 &&& 0x10 != 0), (Btn.btnB, data.getD 4 0 &&& 0x20 != 0),
           (Btn.btnX, data.getD 4 0 &&& 0x40 != 0), (Btn.btnY, data.getD 4 0 &&& 0x80 != 0)] ++
          (if mapContains cfg.mapping MAP_DPAD_TO_BUTTONS then
            [(Btn.th1, data.getD 5 0 &&& 0x04 != 0), (Btn.th2, data.getD 5 0 &&& 0x08 != 0),
             (Btn.th3, data.getD 5 0 &&& 0x01 != 0), (Btn.th4, data.getD 5 0 &&& 0x02 != 0)]
          else []),
        abs :=
          (if mapContains cfg.mapping MAP_DPAD_TO_BUTTONS then []
           else
            [(Axis.hat0x, boolToInt (data.getD 5 0 &&& 0x08 != 0) -
                          boolToInt (data.getD 5 0 &&& 0x04 != 0)),
             (Axis.hat0y, boolToInt (data.getD 5 0 &&& 0x02 != 0) -
                          boolToInt (data.getD 5 0 &&& 0x01 != 0))]) ++
          (if mapContains cfg.mapping MAP_STICKS_TO_NULL then []
           else
            [(Axis.absX, i16FromLe (data.getD 10 0) (data.getD 11 0)),
             (Axis.absY, i16Not (i16FromLe (data.getD 12 0) (data.getD 13 0))),
             (Axis.absRx, i16FromLe (data.getD 14 0) (data.getD 15 0)),
             (Axis.absRy, i16Not (i16FromLe (data.getD 16 0) (data.getD 17 0)))]),
        ack := none, doSync := true } := by
  have g0 : getByte data 0 = Except.ok GIP_CMD_INPUT := by
    rw [getByte_eq_ok (show 0 < data.length by omega), h0]
  have g4 : getByte data 4 = Except.ok (data.getD 4 0) := getByte_eq_ok (by omega)
  have g5 : getByte data 5 = Except.ok (data.getD 5 0) := getByte_eq_ok (by omega)
  have g10 : getByte data 10 = Except.ok (data.getD 10 0) := getByte_eq_ok (by omega)
  have g11 : getByte data 11 = Except.ok (data.getD 11 0) := getByte_eq_ok (by omega)
  have g12 : getByte data 12 = Except.ok (data.getD 12 0) := getByte_eq_ok (by omega)
  have g13 : getByte data 13 = Except.ok (data.getD 13 0) := getByte_eq_ok (by omega)
  have g14 : getByte data 14 = Except.ok (data.getD 14 0) := getByte_eq_ok (by omega)
  have g15 : getByte data 15 = Except.ok (data.getD 15 0) := getByte_eq_ok (by omega)
  have g16 : getByte data 16 = Except.ok (data.getD 16 0) := getByte_eq_ok (by omega)
  have g17 : getByte data 17 = Except.ok (data.getD 17 0) := getByte_eq_ok (by omega)
  rcases hs : mapContains cfg.mapping MAP_STICKS_TO_NULL with _ | _ <;>
    simp [xpadone_process_packet, g0, g4, g5, g10, g11, g12, g13, g14, g15, g16, g17,
          exBind_ok, pure_eq_ok, hs,
          GIP_CMD_VIRTUAL_KEY, GIP_CMD_FIRMWARE, GIP_CMD_INPUT]

/-! ## D-pad / hat shape of decoded frames -/

lemma process_packet_flags {p : ModParams} {data : List Nat} {f : Frame}
    (h : process_packet p data = Except.ok f) :
    hasDpadBtn f = p.dpadToButtons ∧ hasHat f = !p.dpadToButtons := by
  unfold process_packet at h
  split at h
  · simp at h
  · have e := (Except.ok.injEq _ _).mp h
    subst e
    rcases hd : p.dpadToButtons with _ | _ <;>
      rcases ht : p.triggersToButtons with _ | _ <;>
        rcases hsn : p.sticksToNull with _ | _ <;>
          simp [hd, ht, hsn, hasDpadBtn, hasHat, isDpadBtn, isHatAxis]

lemma xpadone_flags {cfg : XpadOneCfg} {data : List Nat} {f : Frame}
    (h : xpadone_process_packet cfg data = Except.ok f) :
    (hasDpadBtn f = true →
      mapContains cfg.mapping MAP_DPAD_TO_BUTTONS = true ∧ hasHat f = false) ∧
    (hasHat f = true → hasDpadBtn f = false) ∧
    (mapContains cfg.mapping MAP_DPAD_TO_BUTTONS = true → hasHat f = true →
      data.getD 0 0 = 0x21) := by
  unfold xpadone_process_packet at h
  obtain ⟨b0, hg0, h⟩ := exBind_eq_ok h
  by_cases hb1 : (b0 == GIP_CMD_VIRTUAL_KEY) = true
  · rw [if_pos hb1] at h
    obtain ⟨b1, hg1, h⟩ := exBind_eq_ok h
    by_cases hba : (b1 == GIP_OPT_ACK ||| GIP_OPT_INTERNAL) = true
    · rw [if_pos hba] at h
      obtain ⟨b2, hg2, h⟩ := exBind_eq_ok h
      obtain ⟨b4, hg4, h⟩ := exBind_eq_ok h
      rw [pure_eq_ok] at h
      have e := (Except.ok.injEq _ _).mp h
      subst e
      simp [vkFrame, hasDpadBtn, hasHat, isDpadBtn, isHatAxis]
    · rw [if_neg hba] at h
      obtain ⟨b4, hg4, h⟩ := exBind_eq_ok h
      rw [pure_eq_ok] at h
      have e := (Except.ok.injEq _ _).mp h
      subst e
      simp [vkFrame, hasDpadBtn, hasHat, isDpadBtn, isHatAxis]
  · rw [if_neg hb1] at h
    by_cases hb2 : (b0 == GIP_CMD_FIRMWARE) = true
    · rw [if_pos hb2] at h
      by_cases hpt : (cfg.packetType == PacketType.xbe2Fw511) = true
      · rw [if_pos hpt] at h
        obtain ⟨b19, hg19, h⟩ := exBind_eq_ok h
        by_cases h19 : (b19 != 0) = true
        · rw [if_pos h19, pure_eq_ok] at h
          have e := (Except.ok.injEq _ _).mp h
          subst e
          simp [fwFrame, hasDpadBtn, hasHat, isDpadBtn, isHatAxis]
        · rw [if_neg h19] at h
          obtain ⟨b18, hg18, h⟩ := exBind_eq_ok h
          rw [pure_eq_ok] at h
          have e := (Except.ok.injEq _ _).mp h
          subst e
          simp [fwFrame, hasDpadBtn, hasHat, isDpadBtn, isHatAxis]
      · rw [if_neg hpt, pure_eq_ok] at h
        have e := (Except.ok.injEq _ _).mp h
        subst e
        simp [hasDpadBtn, hasHat]
    · rw [if_neg hb2] at h
      by_cases hb3 : (b0 == GIP_CMD_INPUT) = true
      · rw [if_pos hb3] at h
        obtain ⟨b4, hg4, h⟩ := exBind_eq_ok h
        obtain ⟨b5, hg5, h⟩ := exBind_eq_ok h
        by_cases hsn : (mapContains cfg.mapping MAP_STICKS_TO_NULL) = true
        · rw [if_pos hsn, pure_eq_ok] at h
          have e := (Except.ok.injEq _ _).mp h
          subst e
          rcases hmd : mapContains cfg.mapping MAP_DPAD_TO_BUTTONS with _ | _ <;>
            simp [hmd, hasDpadBtn, hasHat, isDpadBtn, isHatAxis]
        · rw [if_neg hsn] at h
          obtain ⟨b10, hg10, h⟩ := exBind_eq_ok h
          obtain ⟨b11, hg11, h⟩ := exBind_eq_ok h
          obtain ⟨b12, hg12, h⟩ := exBind_eq_ok h
          obtain ⟨b13, hg13, h⟩ := exBind_eq_ok h
          obtain ⟨b14, hg14, h⟩ := exBind_eq_ok h
          obtain ⟨b15, hg15, h⟩ := exBind_eq_ok h
          obtain ⟨b16, hg16, h⟩ := exBind_eq_ok h
          obtain ⟨b17, hg17, h⟩ := exBind_eq_ok h
          rw [pure_eq_ok] at h
          have e := (Except.ok.injEq _ _).mp h
          subst e
          rcases hmd : mapContains cfg.mapping MAP_DPAD_TO_BUTTONS with _ | _ <;>
            simp [hmd, hasDpadBtn, hasHat, isDpadBtn, isHatAxis]
      · rw [if_neg hb3] at h
        by_cases hb4 : (b0 == 0x21) = true
        · rw [if_pos hb4] at h
          obtain ⟨b6, hg6, h⟩ := exBind_eq_ok h
          rw [pure_eq_ok] at h
          have e := (Except.ok.injEq _ _).mp h
          subst e
          have hd0 : data.getD 0 0 = 0x21 := by
            rw [getByte_ok_getD hg0]
            exact beq_iff_eq.mp hb4
          refine ⟨?_, ?_, fun _ _ => hd0⟩
          · intro hdp
            simp [hasDpadBtn] at hdp
          · intro _
            simp [hasDpadBtn]
        · rw [if_neg hb4, pure_eq_ok] at h
          have e := (Except.ok.injEq _ _).mp h
          subst e
          simp [hasDpadBtn, hasHat]

/-- C1 fails as stated: the Xbox One decode path performs no length check.
    On the 4-byte buffer `[0x20, 0, 0, 0]` (first byte the main input
    command tag), `xpadone_process_packet` indexes position 4 — one past
    the valid length — instead of returning an explicit error, although
    the buffer is shorter than the required packet length. -/
theorem c1_counterexample :
    xpadone_process_packet { mapping := 0, packetType := PacketType.xb } [0x20, 0, 0, 0] =
      Except.error (DecodeErr.panic 4) ∧
    DecodeErr.panic 4 ≠ DecodeErr.einval ∧
    List.length [0x20, 0, 0, 0] < XPAD_PKT_LEN := by decide

/-- C1 amended: only the Xbox / Xbox 360 `process_packet` path checks the
    buffer length, returning the explicit error EINVAL for every buffer
    shorter than `XPAD_PKT_LEN` before reading any packet byte; the
    Xbox One and Xbox 360 wireless paths index the buffer unchecked. -/
theorem c1_amended (p : ModParams) (data : List Nat)
    (h : data.length < XPAD_PKT_LEN) :
    process_packet p data = Except.error DecodeErr.einval := by
  unfold process_packet
  rw [if_pos h]

/-- C1 amended witness. -/
theorem c1_amended_witness :
    process_packet ⟨false, false, false⟩ [1, 2, 3] = Except.error DecodeErr.einval :=
  c1_amended ⟨false, false, false⟩ [1, 2, 3] (by decide)

/-- C3: with STICKS_TO_NULL unset, every reported Y axis value is the
    bitwise complement of the little-endian signed 16-bit value at that
    byte offset of that axis — bytes 14/15 on the Xbox / Xbox 360 path, bytes
    12/13 (left Y) and 16/17 (right Y) on the Xbox One main input path —
    and in particular a raw Y of 0 is reported as -1. -/
theorem c3_y_inverted :
    (∀ (p : ModParams) (data : List Nat),
        p.sticksToNull = false → XPAD_PKT_LEN ≤ data.length →
        ∃ f, process_packet p data = Except.ok f ∧
          frameAbs f Axis.absY =
            some (i16Not (i16FromLe (data.getD 14 0) (data.getD 15 0)))) ∧
    (∀ (cfg : XpadOneCfg) (data : List Nat),
        mapContains cfg.mapping MAP_STICKS_TO_NULL = false →
        data.getD 0 0 = GIP_CMD_INPUT → 18 ≤ data.length →
        ∃ f, xpadone_process_packet cfg data = Except.ok f ∧
          frameAbs f Axis.absY =
            some (i16Not (i16FromLe (data.getD 12 0) (data.getD 13 0))) ∧
          frameAbs f Axis.absRy =
            some (i16Not (i16FromLe (data.getD 16 0) (data.getD 17 0)))) ∧
    i16Not (i16FromLe 0 0) = -1 := by
  refine ⟨?_, ?_, by decide⟩
  · intro p data hst h
    refine ⟨_, process_packet_eval p data h, ?_⟩
    simp [frameAbs, absVal, hst]
  · intro cfg data hst h0 h
    refine ⟨_, xpadone_input_eval cfg data h0 h, ?_, ?_⟩ <;>
      rcases hd : mapContains cfg.mapping MAP_DPAD_TO_BUTTONS with _ | _ <;>
        simp [frameAbs, absVal, hst, hd]

/-- C3 witness. -/
theorem c3_y_inverted_witness :
    ∃ f, process_packet ⟨false, false, false⟩ (List.replicate 64 0) = Except.ok f ∧
      frameAbs f Axis.absY =
        some (i16Not (i16FromLe ((List.replicate 64 0).getD 14 0)
                                ((List.replicate 64 0).getD 15 0))) :=
  c3_y_inverted.1 ⟨false, false, false⟩ (List.replicate 64 0) rfl (by decide)

/-- C6 fails as stated: on the Xbox / Xbox 360 `process_packet` path,
    the packet whose d-pad byte is 0x04 (the bit the DPAD_TO_BUTTONS
    branch maps to the LEFT button TRIGGER_HAPPY1) is reported as
    hat_x = +1, while the claimed formula bit(right) - bit(left) =
    bit(0x08) - bit(0x04) gives -1. -/
theorem c6_counterexample :
    Except.map (fun f => frameAbs f Axis.hat0x)
      (process_packet ⟨false, false, false⟩ ((List.replicate 64 0).set 2 4)) =
      Except.ok (some 1) ∧
    boolToInt ((4 : Nat) &&& 0x08 != 0) - boolToInt ((4 : Nat) &&& 0x04 != 0) = -1 := by
  decide

/-- C6 amended: with DPAD_TO_BUTTONS unset the hat pair is computed from
    the same bits the buttons branch uses (0x04 left, 0x08 right, 0x01 up,
    0x02 down), but with opposite orientation on the two paths: the Xbox /
    Xbox 360 path reports hat_x = bit(0x04) - bit(0x08) and
    hat_y = bit(0x01) - bit(0x02), while the Xbox One main input path
    reports hat_x = bit(0x08) - bit(0x04) and hat_y = bit(0x02) - bit(0x01)
    as the claim stated. -/
theorem c6_amended :
    (∀ (p : ModParams) (data : List Nat),
        p.dpadToButtons = false → XPAD_PKT_LEN ≤ data.length →
        ∃ f, process_packet p data = Except.ok f ∧
          frameAbs f Axis.hat0x =
            some (boolToInt (data.getD 2 0 &&& 0x04 != 0) -
                  boolToInt (data.getD 2 0 &&& 0x08 != 0)) ∧
          frameAbs f Axis.hat0y =
            some (boolToInt (data.getD 2 0 &&& 0x01 != 0) -
                  boolToInt (data.getD 2 0 &&& 0x02 != 0))) ∧
    (∀ (cfg : XpadOneCfg) (data : List Nat),
        mapContains cfg.mapping MAP_DPAD_TO_BUTTONS = false →
        data.getD 0 0 = GIP_CMD_INPUT → 18 ≤ data.length →
        ∃ f, xpadone_process_packet cfg data = Except.ok f ∧
          frameAbs f Axis.hat0x =
            some (boolToInt (data.getD 5 0 &&& 0x08 != 0) -
                  boolToInt (data.getD 5 0 &&& 0x04 != 0)) ∧
          frameAbs f Axis.hat0y =
            some (boolToInt (data.getD 5 0 &&& 0x02 != 0) -
                  boolToInt (data.getD 5 0 &&& 0x01 != 0))) := by
  constructor
  · intro p data hd h
    refine ⟨_, process_packet_eval p data h, ?_, ?_⟩ <;>
      rcases ht : p.triggersToButtons with _ | _ <;>
        rcases hs : p.sticksToNull with _ | _ <;>
          simp [frameAbs, absVal, hd, ht, hs]
  · intro cfg data hd h0 h
    refine ⟨_, xpadone_input_eval cfg data h0 h, ?_, ?_⟩ <;>
      rcases hs : mapContains cfg.mapping MAP_STICKS_TO_NULL with _ | _ <;>
        simp [frameAbs, absVal, hd, hs]

/-- C6 amended witness. -/
theorem c6_amended_witness :
    ∃ f, process_packet ⟨false, false, false⟩ (List.replicate 64 0) = Except.ok f ∧
      frameAbs f Axis.hat0x =
        some (boolToInt ((List.replicate 64 0).getD 2 0 &&& 0x04 != 0) -
              boolToInt ((List.replicate 64 0).getD 2 0 &&& 0x08 != 0)) ∧
      frameAbs f Axis.hat0y =
        some (boolToInt ((List.replicate 64 0).getD 2 0 &&& 0x01 != 0) -
              boolToInt ((List.replicate 64 0).getD 2 0 &&& 0x02 != 0)) :=
  c6_amended.1 ⟨false, false, false⟩ (List.replicate 64 0) rfl (by decide)

/-- C7 fails as stated: the Xbox One GHL path (first byte 0x21) emits
    hat-axis reports even though DPAD_TO_BUTTONS is set in the mapping,
    contradicting "with DPAD_TO_BUTTONS set it emits only the four d-pad
    button reports and no hat-axis report". -/
theorem c7_counterexample :
    xpadone_process_packet ⟨1, PacketType.xb⟩ [0x21, 0, 0, 0, 0, 0, 5] =
      Except.ok { keys := [], abs := [(Axis.hat0x, -1), (Axis.hat0y, 1)],
                  ack := none, doSync := true } ∧
    mapContains 1 MAP_DPAD_TO_BUTTONS = true ∧
    hasHat { keys := [], abs := [(Axis.hat0x, -1), (Axis.hat0y, 1)],
             ack := none, doSync := true } = true := by decide

/-- C7 amended: no decode call ever emits both d-pad button reports and
    hat-axis reports; on the Xbox / Xbox 360 path DPAD_TO_BUTTONS set
    means no hat report and unset means no d-pad button report; on the
    Xbox One path unset means no d-pad button report, and with it set a
    hat report can only come from a GHL packet (first byte 0x21), whose
    path ignores the flag. -/
theorem c7_amended :
    (∀ (p : ModParams) (data : List Nat) (f : Frame),
        process_packet p data = Except.ok f →
        ¬(hasDpadBtn f = true ∧ hasHat f = true)) ∧
    (∀ (cfg : XpadOneCfg) (data : List Nat) (f : Frame),
        xpadone_process_packet cfg data = Except.ok f →
        ¬(hasDpadBtn f = true ∧ hasHat f = true)) ∧
    (∀ (p : ModParams) (data : List Nat) (f : Frame),
        process_packet p data = Except.ok f →
        p.dpadToButtons = true → hasHat f = false) ∧
    (∀ (p : ModParams) (data : List Nat) (f : Frame),
        process_packet p data = Except.ok f →
        p.dpadToButtons = false → hasDpadBtn f = false) ∧
    (∀ (cfg : XpadOneCfg) (data : List Nat) (f : Frame),
        xpadone_process_packet cfg data = Except.ok f →
        mapContains cfg.mapping MAP_DPAD_TO_BUTTONS = false →
        hasDpadBtn f = false) ∧
    (∀ (cfg : XpadOneCfg) (data : List Nat) (f : Frame),
        xpadone_process_packet cfg data = Except.ok f →
        mapContains cfg.mapping MAP_DPAD_TO_BUTTONS = true → hasHat f = true →
        data.getD 0 0 = 0x21) := by
  refine ⟨?_, ?_, ?_, ?_, ?_, ?_⟩
  · intro p data f h hc
    obtain ⟨h1, h2⟩ := process_packet_flags h
    rw [hc.1] at h1
    rw [← h1] at h2
    rw [hc.2] at h2
    simp at h2
  · intro cfg data f h hc
    obtain ⟨h1, -, -⟩ := xpadone_flags h
    have h2 := (h1 hc.1).2
    rw [hc.2] at h2
    simp at h2
  · intro p data f h hd
    obtain ⟨-, h2⟩ := process_packet_flags h
    rw [hd] at h2
    simpa using h2
  · intro p data f h hd
    obtain ⟨h1, -⟩ := process_packet_flags h
    rw [hd] at h1
    exact h1
  · intro cfg data f h hd
    obtain ⟨h1, -, -⟩ := xpadone_flags h
    rcases hdb : hasDpadBtn f with _ | _
    · rfl
    · have := (h1 hdb).1
      rw [hd] at this
      cases this
  · intro cfg data f h hd hh
    obtain ⟨-, -, h3⟩ := xpadone_flags h
    exact h3 hd hh

/-- C7 amended witness. -/
theorem c7_amended_witness :
    ¬(hasDpadBtn { keys := [], abs := [(Axis.absX, 0), (Axis.absY, -1),
                                       (Axis.absZ, 0), (Axis.absRz, 0),
                                       (Axis.hat0x, 0), (Axis.hat0y, 0)],
                   ack := none, doSync := true } = true ∧
      hasHat { keys := [], abs := [(Axis.absX, 0), (Axis.absY, -1),
                                   (Axis.absZ, 0), (Axis.absRz, 0),
                                   (Axis.hat0x, 0), (Axis.hat0y, 0)],
               ack := none, doSync := true } = true) :=
  c7_amended.1 ⟨false, false, false⟩ (List.replicate 64 0) _ (by decide)

/-! ## Initialization sequencer lemmas -/

lemma getD_set2 {l : List Nat} {v : Nat} (h : 3 ≤ l.length) :
    (l.set 2 v).getD 2 0 = v := by
  match l, h with
  | _ :: _ :: _ :: _, _ => rfl
  | [], h => simp at h
  | [_], h => simp at h
  | [_, _], h => simp at h

lemma prep_some (s : XpadSession) :
    ∀ d s1, xpad_prepare_next_init_packet s = (some d, s1) →
      s1.templates = s.templates ∧ s1.vendorId = s.vendorId ∧
      s1.productId = s.productId ∧ s1.odataSerial = s.odataSerial + 1 ∧
      ∃ p, p ∈ s.templates ∧ templApplies s p = true ∧
        d = p.data.set 2 (s.odataSerial % 256) := by
  induction s using xpad_prepare_next_init_packet.induct with
  | case1 x h happ =>
    intro d s1 hp
    rw [xpad_prepare_next_init_packet, dif_pos h, if_pos happ] at hp
    injection hp with h1 h2
    injection h1 with h1
    subst h1
    subst h2
    exact ⟨rfl, rfl, rfl, rfl, x.templates.get ⟨x.initSeq, h⟩,
           List.get_mem x.templates x.initSeq h, happ, rfl⟩
  | case2 x h happ ih =>
    intro d s1 hp
    rw [xpad_prepare_next_init_packet, dif_pos h, if_neg happ] at hp
    obtain ⟨ht, hv, hpr, ho, p, hm, ha, hd⟩ := ih d s1 hp
    exact ⟨ht, hv, hpr, ho, p, hm, ha, hd⟩
  | case3 x h =>
    intro d s1 hp
    rw [xpad_prepare_next_init_packet, dif_neg h] at hp
    injection hp with h1 h2
    cases h1

lemma prep_none (s : XpadSession) :
    ∀ s1, xpad_prepare_next_init_packet s = (none, s1) →
      s1.templates = s.templates ∧ ¬(s1.initSeq < s1.templates.length) := by
  induction s using xpad_prepare_next_init_packet.induct with
  | case1 x h happ =>
    intro s1 hp
    rw [xpad_prepare_next_init_packet, dif_pos h, if_pos happ] at hp
    injection hp with h1 h2
    cases h1
  | case2 x h happ ih =>
    intro s1 hp
    rw [xpad_prepare_next_init_packet, dif_pos h, if_neg happ] at hp
    obtain ⟨ht, hl⟩ := ih s1 hp
    exact ⟨ht, hl⟩
  | case3 x h =>
    intro s1 hp
    rw [xpad_prepare_next_init_packet, dif_neg h] at hp
    injection hp with h1 h2
    subst h2
    exact ⟨rfl, h⟩

/-- C2: successive successful calls of the initialization sequencer stamp
    serial bytes that increase by one modulo 256, and once a call returns
    nothing every subsequent call on the resulting session state also
    returns nothing (exhaustion is permanent). -/
theorem c2_init_sequencer (s : XpadSession)
    (hlen : ∀ p ∈ s.templates, 3 ≤ p.data.length) :
    (∀ d1 s1 d2 s2,
        xpad_prepare_next_init_packet s = (some d1, s1) →
        xpad_prepare_next_init_packet s1 = (some d2, s2) →
        d2.getD 2 0 = (d1.getD 2 0 + 1) % 256) ∧
    (∀ s1, xpad_prepare_next_init_packet s = (none, s1) →
        xpad_prepare_next_init_packet s1 = (none, s1)) := by
  constructor
  · intro d1 s1 d2 s2 h1 h2
    obtain ⟨ht1, -, -, hs1, p1, hm1, -, hd1⟩ := prep_some s d1 s1 h1
    obtain ⟨-, -, -, -, p2, hm2, -, hd2⟩ := prep_some s1 d2 s2 h2
    have l1 : 3 ≤ p1.data.length := hlen p1 hm1
    have l2 : 3 ≤ p2.data.length := hlen p2 (ht1 ▸ hm2)
    subst hd1
    subst hd2
    rw [getD_set2 l1, getD_set2 l2, hs1]
    omega
  · intro s1 h1
    obtain ⟨-, hl⟩ := prep_none s s1 h1
    rw [xpad_prepare_next_init_packet, dif_neg hl]

/-- C2 witness: a session with two applicable templates actually performs
    two consecutive successful calls, whose stamped serials wrap from 255
    to 0 = (255 + 1) % 256; a session whose only template never applies
    actually returns none, and the exhausted state returns none again. -/
theorem c2_init_sequencer_witness :
    ([5, 6, 0, 8] : List Nat).getD 2 0 =
      (([1, 2, 255, 4] : List Nat).getD 2 0 + 1) % 256 ∧
    xpad_prepare_next_init_packet
      { templates := [⟨7, 7, [9, 9, 9]⟩], vendorId := 5, productId := 6,
        initSeq := 1, odataSerial := 0 } =
      (none,
       { templates := [⟨7, 7, [9, 9, 9]⟩], vendorId := 5, productId := 6,
         initSeq := 1, odataSerial := 0 }) :=
  ⟨(c2_init_sequencer
      { templates := [⟨0, 0, [1, 2, 3, 4]⟩, ⟨0, 0, [5, 6, 7, 8]⟩],
        vendorId := 5, productId := 6, initSeq := 0, odataSerial := 255 }
      (by decide)).1
    [1, 2, 255, 4]
    { templates := [⟨0, 0, [1, 2, 3, 4]⟩, ⟨0, 0, [5, 6, 7, 8]⟩],
      vendorId := 5, productId := 6, initSeq := 1, odataSerial := 256 }
    [5, 6, 0, 8]
    { templates := [⟨0, 0, [1, 2, 3, 4]⟩, ⟨0, 0, [5, 6, 7, 8]⟩],
      vendorId := 5, productId := 6, initSeq := 2, odataSerial := 257 }
    (by simp [xpad_prepare_next_init_packet, templApplies])
    (by simp [xpad_prepare_next_init_packet, templApplies]),
   (c2_init_sequencer
      { templates := [⟨7, 7, [9, 9, 9]⟩], vendorId := 5, productId := 6,
        initSeq := 0, odataSerial := 0 }
      (by decide)).2
    { templates := [⟨7, 7, [9, 9, 9]⟩], vendorId := 5, productId := 6,
      initSeq := 1, odataSerial := 0 }
    (by simp [xpad_prepare_next_init_packet, templApplies])⟩

/-- C9: every packet returned by the initialization sequencer equals the
    payload of the applicable template byte for byte, except that index 2 holds
    the output serial of the session (mod 256); the template list in the session
    state is never changed by a call. -/
theorem c9_init_packet_shape (s : XpadSession)
    (hlen : ∀ p ∈ s.templates, 3 ≤ p.data.length) :
    (xpad_prepare_next_init_packet s).2.templates = s.templates ∧
    (∀ d s1, xpad_prepare_next_init_packet s = (some d, s1) →
      ∃ p, p ∈ s.templates ∧ templApplies s p = true ∧
        d.length = p.data.length ∧
        d.getD 2 0 = s.odataSerial % 256 ∧
        ∀ i, i ≠ 2 → d[i]? = p.data[i]?) := by
  constructor
  · rcases hp : xpad_prepare_next_init_packet s with ⟨o, s1⟩
    rcases o with _ | d
    · exact (prep_none s s1 hp).1
    · exact (prep_some s d s1 hp).1
  · intro d s1 hp
    obtain ⟨-, -, -, -, p, hm, ha, hd⟩ := prep_some s d s1 hp
    subst hd
    have l3 : 3 ≤ p.data.length := hlen p hm
    refine ⟨p, hm, ha, List.length_set p.data 2 _, getD_set2 l3, ?_⟩
    intro i hi
    exact List.getElem?_set_ne (Ne.symm hi)

/-- C9 witness. -/
theorem c9_init_packet_shape_witness :
    (xpad_prepare_next_init_packet
      { templates := [⟨7, 7, [9, 9, 9]⟩, ⟨0, 0, [1, 2, 3, 4]⟩],
        vendorId := 5, productId := 6, initSeq := 0, odataSerial := 255 }).2.templates =
      XpadSession.templates
        { templates := [⟨7, 7, [9, 9, 9]⟩, ⟨0, 0, [1, 2, 3, 4]⟩],
          vendorId := 5, productId := 6, initSeq := 0, odataSerial := 255 } ∧
    (∀ d s1,
        xpad_prepare_next_init_packet
          { templates := [⟨7, 7, [9, 9, 9]⟩, ⟨0, 0, [1, 2, 3, 4]⟩],
            vendorId := 5, productId := 6, initSeq := 0, odataSerial := 255 } =
          (some d, s1) →
      ∃ p, p ∈ XpadSession.templates
          { templates := [⟨7, 7, [9, 9, 9]⟩, ⟨0, 0, [1, 2, 3, 4]⟩],
            vendorId := 5, productId := 6, initSeq := 0, odataSerial := 255 } ∧
        templApplies
          { templates := [⟨7, 7, [9, 9, 9]⟩, ⟨0, 0, [1, 2, 3, 4]⟩],
            vendorId := 5, productId := 6, initSeq := 0, odataSerial := 255 } p = true ∧
        d.length = p.data.length ∧
        d.getD 2 0 = XpadSession.odataSerial
          { templates := [⟨7, 7, [9, 9, 9]⟩, ⟨0, 0, [1, 2, 3, 4]⟩],
            vendorId := 5, productId := 6, initSeq := 0, odataSerial := 255 } % 256 ∧
        ∀ i, i ≠ 2 → d[i]? = p.data[i]?) :=
  c9_init_packet_shape
    { templates := [⟨7, 7, [9, 9, 9]⟩, ⟨0, 0, [1, 2, 3, 4]⟩],
      vendorId := 5, productId := 6, initSeq := 0, odataSerial := 255 }
    (by decide)

/-- C4 witness. -/
theorem c4_presence_idempotent_witness :
    W360Result.event { present := true, event := false, delegated := none } = false ∧
    (W360Result.event { present := true, event := true, delegated := none } = true ↔
      false ≠ presBit [8, 0x81, 0, 0]) :=
  c4_presence_idempotent.1 false [8, 0x81, 0, 0] [8, 0x81, 0, 0]
    { present := true, event := true, delegated := none }
    { present := true, event := false, delegated := none }
    (by decide) (by decide) rfl (by decide) (by decide)

/-- C5 amended witness. -/
theorem c5_amended_witness :
    (W360Result.delegated { present := false, event := false, delegated := some [0xAA] } =
        some ([0x08, 0x01, 0, 0, 0xAA].drop 4) ↔
      ([0x08, 0x01, 0, 0, 0xAA].getD 1 0 = 1 ∧ 4 ≤ [0x08, 0x01, 0, 0, 0xAA].length)) ∧
    (W360Result.delegated { present := false, event := false, delegated := some [0xAA] } =
        none ↔
      ¬([0x08, 0x01, 0, 0, 0xAA].getD 1 0 = 1 ∧ 4 ≤ [0x08, 0x01, 0, 0, 0xAA].length)) :=
  c5_amended.1 false [0x08, 0x01, 0, 0, 0xAA]
    { present := false, event := false, delegated := some [0xAA] } (by decide)

/-- C8: the Xbox One rumble encoder writes the strong and weak motor
    bytes (payload indices 8 and 9) as the 16-bit magnitudes integer
    divided by 512, stamps the serial and increments it; in particular
    a strong magnitude of 1024 encodes as motor byte 1024/512 = 2. -/
theorem c8_rumble_scale (serial strong weak : Nat)
    (hs : strong < 65536) (hw : weak < 65536) :
    ∃ pkt, xpad_play_effect XType.xboxOne serial strong weak =
        (Except.ok pkt, serial + 1) ∧
      pkt.getD 8 0 = strong / 512 ∧ pkt.getD 9 0 = weak / 512 ∧
      (1024 : Nat) / 512 = 2 := by
  refine ⟨_, rfl, ?_, ?_, rfl⟩
  · show (strong / 512) % 256 = strong / 512
    omega
  · show (weak / 512) % 256 = weak / 512
    omega

/-- C8 witness. -/
theorem c8_rumble_scale_witness :
    ∃ pkt, xpad_play_effect XType.xboxOne 0 1024 0 = (Except.ok pkt, 0 + 1) ∧
      pkt.getD 8 0 = 1024 / 512 ∧ pkt.getD 9 0 = 0 / 512 ∧
      (1024 : Nat) / 512 = 2 :=
  c8_rumble_scale 0 1024 0 (by decide) (by decide)

/-- C10: issuing the rumble effect on any variant other than XboxOne
    returns the explicit "not supported" error, transmits no packet and
    leaves the output serial counter unchanged. -/
theorem c10_not_supported (xtype : XType) (serial strong weak : Nat)
    (h : xtype ≠ XType.xboxOne) :
    xpad_play_effect xtype serial strong weak =
      (Except.error UsbErr.notSupported, serial) := by
  cases xtype <;> first | rfl | exact absurd rfl h

/-- C10 witness. -/
theorem c10_not_supported_witness :
    xpad_play_effect XType.xbox360 7 1024 0 = (Except.error UsbErr.notSupported, 7) :=
  c10_not_supported XType.xbox360 7 1024 0 (by decide)
